import Mathlib

/-!
Shallow embedding of the VPN provisioning agent (src/config.py, src/security.py,
src/sacli_runner.py, src/main.py) and proofs of the specification claims.

The external `sacli` tool is abstracted by a function
`exec : List String → Bool × String` giving, for each argument list passed to
`run_sacli`, the `(success, output)` pair that `run_sacli` returns for it.
Workflow functions additionally return the list of argument lists they passed
to the executor, in invocation order, so that "command X was (never) invoked"
is expressible.  Randomness (`secrets.choice`) is abstracted by a choice
function `Nat → Fin 70`; the password `generate_password` would produce is
threaded into `provision_user` as the parameter `genPwd`.
-/

/-- Python's `\s` / `str.strip()` whitespace class (ASCII part):
space, tab, newline, carriage return, vertical tab, form feed. -/
def isPySpace (c : Char) : Bool :=
  c = ' ' || c = '\t' || c = '\n' || c = '\r' || c = '\x0b' || c = '\x0c'

/-- Python `str.strip()` on a character list: drop whitespace from both ends. -/
def pyStrip (l : List Char) : List Char :=
  ((l.dropWhile isPySpace).reverse.dropWhile isPySpace).reverse

/-- Python `str.strip()` on a string. -/
def pyStripStr (s : String) : String :=
  String.mk (pyStrip s.data)

/-- Python `str.split(sep)` for a one-character separator: always returns at
least one (possibly empty) group. -/
def pySplit (sep : Char) : List Char → List (List Char)
  | [] => [[]]
  | c :: cs =>
    match pySplit sep cs with
    | [] => [[]]
    | g :: gs => if c = sep then [] :: g :: gs else (c :: g) :: gs

/-- Python truthiness-based `x or d` for an optional string `x`:
`None` and `""` both fall through to the default. -/
def pyOr (x : Option String) (d : String) : String :=
  match x with
  | none => d
  | some s => if s = "" then d else s

/-! ## Command Executor (`SacliRunner.run_sacli`, src/sacli_runner.py lines 16-54) -/

/-- The behaviour of one spawned external process: how long it runs, its exit
status and streams if it completes, or the stringified exception (`str(e)`)
if `subprocess.run` raises something other than `TimeoutExpired`. -/
structure ProcBehavior where
  duration : Nat
  returncode : Int
  stdout : String
  stderr : String
  raises : Option String
deriving DecidableEq

/-- What `subprocess.run(..., timeout=t)` delivers to `run_sacli`. -/
inductive ProcEvent where
  | completed (returncode : Int) (stdout stderr : String)
  | timedOut
  | errored (msg : String)
deriving DecidableEq

/-- `subprocess.run` with a wall-clock timeout: an exception other than the
timeout surfaces as `errored`; otherwise the process times out exactly when
its duration exceeds the timeout. -/
def subprocessRun (timeout : Nat) (b : ProcBehavior) : ProcEvent :=
  match b.raises with
  | some e => ProcEvent.errored e
  | none =>
    if timeout < b.duration then ProcEvent.timedOut
    else ProcEvent.completed b.returncode b.stdout b.stderr

/-- The timeout passed to `subprocess.run` in `run_sacli` (line 39). -/
def sacliTimeout : Nat := 30

/-- `full_command` construction of `run_sacli` (lines 27-30): prefix `sudo`
and the configured sacli path. -/
def full_command (sacliPath : String) (useSudo : Bool) (command : List String) :
    List String :=
  if useSudo then "sudo" :: sacliPath :: command else sacliPath :: command

/-- `SacliRunner.run_sacli` (lines 16-54).  `proc` gives the behaviour of the
external process for each full command line.  Exit status zero means success
with stripped stdout; otherwise failure with stripped stderr; a timeout yields
`(False, "Command timed out")`; any other exception yields `(False, str(e))`. -/
def run_sacli (proc : List String → ProcBehavior) (sacliPath : String)
    (useSudo : Bool) (command : List String) : Bool × String :=
  match subprocessRun sacliTimeout (proc (full_command sacliPath useSudo command)) with
  | ProcEvent.completed rc out err =>
    if rc = 0 then (true, pyStripStr out) else (false, pyStripStr err)
  | ProcEvent.timedOut => (false, "Command timed out")
  | ProcEvent.errored e => (false, e)

/-! ## Credential Generator (`generate_password`, lines 56-60) -/

/-- `string.ascii_letters + string.digits + "!@#$%^&*"`: the 70-character
password alphabet. -/
def pwdAlphabet : List Char :=
  "abcdefghijklmnopqrstuvwxyzABCDEFGHIJKLMNOPQRSTUVWXYZ0123456789!@#$%^&*".data

theorem pwdAlphabet_length : pwdAlphabet.length = 70 := by decide

/-- `generate_password(length)`: one `secrets.choice(alphabet)` per position,
joined.  The random draws are abstracted by `choice`.  No validation is
performed on `length`. -/
def generate_password (length : Nat) (choice : Nat → Fin 70) : String :=
  String.mk ((List.range length).map fun i =>
    pwdAlphabet.get (Fin.cast pwdAlphabet_length.symm (choice i)))

/-! ## Output Parser (`generate_profile_token`, lines 103-119) -/

/-- The literal part of the first regex
`openvpn://import-profile/(https://\S+)`: the capture group starts at the
embedded `https://`. -/
def importLit : List Char := "openvpn://import-profile/".data

/-- Leading literal of the captured URL. -/
def httpsLit : List Char := "https://".data

/-- Full literal that must precede the `\S+` of the first pattern. -/
def lit1 : List Char := importLit ++ httpsLit

/-- Literal keyword of the second regex `Token:\s*(\S+)` (case-sensitive). -/
def lit2 : List Char := "Token:".data

/-- Try the first pattern anchored at the start of `l`: the literal followed by
a non-empty non-whitespace run; the match is the embedded URL
`https://` + run. -/
def tryShape1At (l : List Char) : Option (List Char) :=
  if lit1.isPrefixOf l then
    match (l.drop lit1.length).takeWhile (fun c => !isPySpace c) with
    | [] => none
    | c :: cs => some (httpsLit ++ c :: cs)
  else none

/-- `re.search` for the first pattern: try every start position left to
right. -/
def searchShape1 : List Char → Option (List Char)
  | [] => none
  | c :: cs =>
    match tryShape1At (c :: cs) with
    | some u => some u
    | none => searchShape1 cs

/-- Try the second pattern anchored at the start of `l`: `Token:`, then a
greedy whitespace run, then a non-empty non-whitespace run (the token). -/
def tryShape2At (l : List Char) : Option (List Char) :=
  if lit2.isPrefixOf l then
    match ((l.drop lit2.length).dropWhile isPySpace).takeWhile
        (fun c => !isPySpace c) with
    | [] => none
    | c :: cs => some (c :: cs)
  else none

/-- `re.search` for the second pattern. -/
def searchShape2 : List Char → Option (List Char)
  | [] => none
  | c :: cs =>
    match tryShape2At (c :: cs) with
    | some u => some u
    | none => searchShape2 cs

/-- The extraction part of `generate_profile_token` (lines 106-119), applied
to the raw output of a successful `AddProfileToken` command: pattern 1 wins
over pattern 2; on a `Token:` match the connection URL is synthesized from
the admin UI base URL, the account name and the token; otherwise absent. -/
def extractToken (adminUrl username raw : String) : Option String :=
  match searchShape1 raw.data with
  | some u => some (String.mk u)
  | none =>
    match searchShape2 raw.data with
    | some tok =>
      some (adminUrl ++ "/?src=connect&username=" ++ username ++ "&token=" ++
        String.mk tok)
    | none => none

/-! ## The four sacli argument lists (lines 62-155) -/

/-- Argument list of `ensure_user_exists` (lines 66-72). -/
def ensureCmd (username : String) : List String :=
  ["--user", username, "UserPropPut", "type", "user_connect"]

/-- Argument list of `set_password` (lines 86-90). -/
def setPassCmd (username password : String) : List String :=
  ["--user", username, "--new_pass", password, "SetLocalPassword"]

/-- Argument list of `generate_profile_token` (line 104). -/
def addTokenCmd (username : String) : List String :=
  ["--user", username, "AddProfileToken"]

/-- Argument list of `get_user_profile` (lines 130-133). -/
def getLoginCmd (username : String) : List String :=
  ["--user", username, "GetUserlogin"]

/-! ## base64 (`get_user_profile`, lines 122-144) -/

/-- UTF-8 encoding of one character (`str.encode()` byte values). -/
def utf8Bytes (c : Char) : List Nat :=
  let n := c.toNat
  if n < 0x80 then [n]
  else if n < 0x800 then
    [0xC0 + n / 0x40, 0x80 + n % 0x40]
  else if n < 0x10000 then
    [0xE0 + n / 0x1000, 0x80 + n / 0x40 % 0x40, 0x80 + n % 0x40]
  else
    [0xF0 + n / 0x40000, 0x80 + n / 0x1000 % 0x40, 0x80 + n / 0x40 % 0x40,
      0x80 + n % 0x40]

/-- UTF-8 bytes of a whole string. -/
def strBytes : List Char → List Nat
  | [] => []
  | c :: cs => utf8Bytes c ++ strBytes cs

/-- The standard base64 digit table. -/
def b64Table : List Char :=
  "ABCDEFGHIJKLMNOPQRSTUVWXYZabcdefghijklmnopqrstuvwxyz0123456789+/".data

/-- One base64 digit. -/
def b64digit (n : Nat) : Char := b64Table.getD (n % 64) 'A'

/-- Standard base64 of a byte list, with `=` padding
(`base64.b64encode`). -/
def b64chunks : List Nat → List Char
  | [] => []
  | [a] => [b64digit (a / 4), b64digit (a % 4 * 16), '=', '=']
  | [a, b] =>
    [b64digit (a / 4), b64digit (a % 4 * 16 + b / 16), b64digit (b % 16 * 4), '=']
  | a :: b :: c :: rest =>
    [b64digit (a / 4), b64digit (a % 4 * 16 + b / 16),
      b64digit (b % 16 * 4 + c / 64), b64digit (c % 64)] ++ b64chunks rest

/-- `base64.b64encode(s.encode()).decode()`. -/
def b64encode (s : String) : String :=
  String.mk (b64chunks (strBytes s.data))

/-! ## Workflow steps and `provision_user` (lines 62-191) -/

/-- `ensure_user_exists` (lines 62-83): returns the success flag of the
`UserPropPut` invocation. -/
def ensure_user_exists (exec : List String → Bool × String) (username : String) :
    Bool :=
  (exec (ensureCmd username)).1

/-- `set_password` (lines 85-101). -/
def set_password (exec : List String → Bool × String)
    (username password : String) : Bool :=
  (exec (setPassCmd username password)).1

/-- `generate_profile_token` (lines 103-119): run `AddProfileToken`; on
command failure return absent, otherwise extract per `extractToken`. -/
def generate_profile_token (exec : List String → Bool × String)
    (adminUrl username : String) : Option String :=
  let r := exec (addTokenCmd username)
  if r.1 = false then none else extractToken adminUrl username r.2

/-- `get_user_profile` (lines 122-144): run `GetUserlogin`; on success return
the base64 encoding of the output, else absent. -/
def get_user_profile (exec : List String → Bool × String) (username : String) :
    Option String :=
  let r := exec (getLoginCmd username)
  if r.1 then some (b64encode r.2) else none

/-- The result dictionary assembled by `provision_user` (lines 147-159,
178-188); `ovpn_file_base64` is the optional key. -/
structure ProvisionResult where
  username : String
  password : String
  token_url : String
  ovpn_file_base64 : Option String
deriving DecidableEq

/-- The `if not password` guard of line 161: Python falsiness, so both absent
and empty supplied passwords are replaced by the generated one. -/
def resolvePassword (supplied : Option String) (genPwd : String) : String :=
  match supplied with
  | none => genPwd
  | some p => if p = "" then genPwd else p

/-- `provision_user` (lines 146-191).  `genPwd` is the password that
`generate_password()` would return at line 162.  Returns the workflow result
together with the argument lists passed to the executor, in order:
ensure account → set password → add profile token → get user login, aborting
(returning absent) when one of the first two steps fails.  Line 185 keys the
result on Python truthiness of the artifact (`if ovpn_file:`). -/
def provision_user (exec : List String → Bool × String)
    (adminUrl genPwd username : String) (supplied : Option String) :
    Option ProvisionResult × List (List String) :=
  let password := resolvePassword supplied genPwd
  if ensure_user_exists exec username = false then
    (none, [ensureCmd username])
  else if set_password exec username password = false then
    (none, [ensureCmd username, setPassCmd username password])
  else
    let token_url := generate_profile_token exec adminUrl username
    let ovpn := get_user_profile exec username
    (some
      { username := username
        password := password
        token_url := pyOr token_url (adminUrl ++ "/?src=connect")
        ovpn_file_base64 :=
          match ovpn with
          | some s => if s = "" then none else some s
          | none => none },
      [ensureCmd username, setPassCmd username password, addTokenCmd username,
        getLoginCmd username])

/-! ## Access gate (src/security.py) and config (src/config.py) -/

/-- `Settings.allowed_ip_list` (src/config.py lines 23-28): split the
comma-separated string, strip each entry, drop empties; the empty
configuration parses to the empty list. -/
def allowed_ip_list (allowed_ips : String) : List String :=
  if allowed_ips = "" then []
  else
    (((pySplit ',' allowed_ips.data).map fun g => String.mk (pyStrip g)).filter
      fun ip => ip ≠ "")

/-- `verify_api_key` (src/security.py lines 12-22).  The header is absent
(`None`) or a string; a falsy header (absent or empty) raises 401
"Missing API key", a mismatching one raises 401 "Invalid API key". -/
def verify_api_key (configuredKey : String) (header : Option String) :
    Except (Nat × String) String :=
  match header with
  | none => Except.error (401, "Missing API key")
  | some k =>
    if k = "" then Except.error (401, "Missing API key")
    else if k ≠ configuredKey then Except.error (401, "Invalid API key")
    else Except.ok k

/-- `verify_ip_address` (src/security.py lines 25-40): empty allowlist means
no restriction; otherwise the client address must appear verbatim. -/
def verify_ip_address (allowed_ips : String) (clientIp : String) :
    Except (Nat × String) Bool :=
  if allowed_ip_list allowed_ips = [] then Except.ok true
  else if clientIp ∈ allowed_ip_list allowed_ips then Except.ok true
  else Except.error (403, "IP address not authorized")

/-- Responses of the `/provision` endpoint. -/
inductive HttpResponse where
  | ok (body : ProvisionResult)
  | error (status : Nat) (detail : String)
deriving DecidableEq

/-- The `/provision` endpoint (src/main.py lines 48-81): the two dependency
gates run before the handler in declaration order; the handler calls
`provision_user` with no password and maps an absent result to a 500 error.
The second component is the list of executor invocations made while serving
the request. -/
def provision_endpoint (exec : List String → Bool × String)
    (adminUrl genPwd configuredKey allowed_ips : String)
    (header : Option String) (clientIp : String) (desired_username : String) :
    HttpResponse × List (List String) :=
  match verify_api_key configuredKey header with
  | Except.error e => (HttpResponse.error e.1 e.2, [])
  | Except.ok _ =>
    match verify_ip_address allowed_ips clientIp with
    | Except.error e => (HttpResponse.error e.1 e.2, [])
    | Except.ok _ =>
      match provision_user exec adminUrl genPwd desired_username none with
      | (none, tr) =>
        (HttpResponse.error 500 "Failed to provision user in OpenVPN Access Server",
          tr)
      | (some r, tr) => (HttpResponse.ok r, tr)

/-! ## Parser lemmas: soundness and completeness of the two pattern scanners -/

/-- Declarative reading of "the raw text contains a substring matching
`openvpn://import-profile/https://<non-whitespace run>`". -/
def containsShape1 (l : List Char) : Prop :=
  ∃ pre run post, l = pre ++ lit1 ++ run ++ post ∧ run ≠ [] ∧
    ∀ c ∈ run, isPySpace c = false

/-- Declarative reading of "the raw text contains `Token:` followed by
optional whitespace and a non-empty whitespace-delimited token". -/
def containsShape2 (l : List Char) : Prop :=
  ∃ pre ws run post, l = pre ++ lit2 ++ ws ++ run ++ post ∧
    (∀ c ∈ ws, isPySpace c = true) ∧ run ≠ [] ∧
    ∀ c ∈ run, isPySpace c = false

theorem head?_dropWhile_false (p : Char → Bool) (l : List Char) :
    ∀ c, ((l.dropWhile p).head? = some c) → p c = false := by
  induction l with
  | nil => intro c h; simp at h
  | cons a as ih =>
    intro c h
    rw [List.dropWhile_cons] at h
    by_cases hpa : p a
    · rw [if_pos hpa] at h; exact ih c h
    · rw [if_neg hpa] at h
      simp only [List.head?_cons, Option.some.injEq] at h
      subst h
      exact Bool.eq_false_iff.mpr hpa

theorem isPrefixOf_iff_exists_append (l₁ : List Char) :
    ∀ l₂, l₁.isPrefixOf l₂ = true ↔ ∃ t, l₁ ++ t = l₂ := by
  induction l₁ with
  | nil => intro l₂; simp [List.isPrefixOf]
  | cons a as ih =>
    intro l₂
    cases l₂ with
    | nil => simp [List.isPrefixOf]
    | cons b bs =>
      simp only [List.isPrefixOf, Bool.and_eq_true, beq_iff_eq, List.cons_append,
        List.cons.injEq, ih bs]
      constructor
      · rintro ⟨rfl, t, rfl⟩; exact ⟨t, rfl, rfl⟩
      · rintro ⟨t, rfl, rfl⟩; exact ⟨rfl, t, rfl⟩

theorem tryShape1At_sound {l u : List Char} (h : tryShape1At l = some u) :
    ∃ run post, l = lit1 ++ run ++ post ∧ run ≠ [] ∧
      (∀ c ∈ run, isPySpace c = false) ∧
      (∀ c, post.head? = some c → isPySpace c = true) ∧ u = httpsLit ++ run := by
  unfold tryShape1At at h
  by_cases hp : lit1.isPrefixOf l = true
  · obtain ⟨rest, hrest⟩ := (isPrefixOf_iff_exists_append lit1 l).mp hp
    subst hrest
    rw [if_pos hp, List.drop_left] at h
    cases hr : rest.takeWhile (fun c => !isPySpace c) with
    | nil => rw [hr] at h; exact absurd h (by simp)
    | cons r rs =>
      rw [hr] at h
      simp only [Option.some.injEq] at h
      subst h
      refine ⟨r :: rs, rest.dropWhile (fun c => !isPySpace c), ?_, by simp, ?_, ?_, rfl⟩
      · have hsplit : rest = (r :: rs) ++ rest.dropWhile (fun c => !isPySpace c) := by
          rw [← hr, List.takeWhile_append_dropWhile]
        conv_lhs => rw [hsplit]
        rw [List.append_assoc]
      · intro x hx
        have hx' : x ∈ rest.takeWhile (fun c => !isPySpace c) := hr ▸ hx
        have := List.mem_takeWhile_imp hx'
        simpa using this
      · intro x hx
        have := head?_dropWhile_false (fun c => !isPySpace c) rest x hx
        simpa using this
  · rw [if_neg hp] at h
    exact absurd h (by simp)

theorem searchShape1_sound (l : List Char) :
    ∀ u, searchShape1 l = some u →
      ∃ pre run post, l = pre ++ lit1 ++ run ++ post ∧ run ≠ [] ∧
        (∀ c ∈ run, isPySpace c = false) ∧
        (∀ c, post.head? = some c → isPySpace c = true) ∧ u = httpsLit ++ run := by
  induction l with
  | nil => intro u h; simp [searchShape1] at h
  | cons a as ih =>
    intro u h
    simp only [searchShape1] at h
    cases ht : tryShape1At (a :: as) with
    | some v =>
      rw [ht] at h
      simp only [Option.some.injEq] at h
      subst h
      obtain ⟨run, post, hl, hne, hmem, hpost, hu⟩ := tryShape1At_sound ht
      exact ⟨[], run, post, by simpa using hl, hne, hmem, hpost, hu⟩
    | none =>
      rw [ht] at h
      obtain ⟨pre, run, post, hl, hne, hmem, hpost, hu⟩ := ih u h
      exact ⟨a :: pre, run, post, by simp [hl], hne, hmem, hpost, hu⟩

theorem tryShape1At_complete (run post : List Char) (hne : run ≠ [])
    (hmem : ∀ c ∈ run, isPySpace c = false) :
    (tryShape1At (lit1 ++ (run ++ post))).isSome = true := by
  unfold tryShape1At
  have hp : lit1.isPrefixOf (lit1 ++ (run ++ post)) = true :=
    (isPrefixOf_iff_exists_append lit1 _).mpr ⟨run ++ post, rfl⟩
  rw [if_pos hp, List.drop_left]
  cases run with
  | nil => exact absurd rfl hne
  | cons r rs =>
    have hr : isPySpace r = false := hmem r (by simp)
    simp only [List.cons_append, List.takeWhile_cons, hr]
    simp

theorem searchShape1_isSome_of_tryAt (l : List Char)
    (h : (tryShape1At l).isSome = true) : (searchShape1 l).isSome = true := by
  cases l with
  | nil =>
    exact absurd h (by simp [tryShape1At, lit1, importLit, List.isPrefixOf])
  | cons a as =>
    simp only [searchShape1]
    cases ht : tryShape1At (a :: as) with
    | some v => simp
    | none => rw [ht] at h; simp at h

theorem searchShape1_complete :
    ∀ (pre run post : List Char), run ≠ [] → (∀ c ∈ run, isPySpace c = false) →
      (searchShape1 (pre ++ (lit1 ++ (run ++ post)))).isSome = true
  | [], run, post, hne, hmem => by
    simpa using searchShape1_isSome_of_tryAt _ (tryShape1At_complete run post hne hmem)
  | a :: pre, run, post, hne, hmem => by
    rw [List.cons_append]
    simp only [searchShape1]
    cases ht : tryShape1At (a :: (pre ++ (lit1 ++ (run ++ post)))) with
    | some v => simp
    | none => simpa using searchShape1_complete pre run post hne hmem

theorem searchShape1_isSome_iff (l : List Char) :
    (searchShape1 l).isSome = true ↔ containsShape1 l := by
  constructor
  · intro h
    obtain ⟨u, hu⟩ := Option.isSome_iff_exists.mp h
    obtain ⟨pre, run, post, hl, hne, hmem, _, _⟩ := searchShape1_sound l u hu
    exact ⟨pre, run, post, hl, hne, hmem⟩
  · rintro ⟨pre, run, post, rfl, hne, hmem⟩
    simpa [List.append_assoc] using searchShape1_complete pre run post hne hmem

theorem searchShape1_eq_none_of_not_contains {l : List Char}
    (h : ¬ containsShape1 l) : searchShape1 l = none := by
  cases hs : searchShape1 l with
  | none => rfl
  | some u =>
    exact absurd ((searchShape1_isSome_iff l).mp (by simp [hs])) h

theorem dropWhile_append_of_all (p : Char → Bool) :
    ∀ (ws xs : List Char), (∀ c ∈ ws, p c = true) →
      (ws ++ xs).dropWhile p = xs.dropWhile p
  | [], xs, _ => rfl
  | a :: ws, xs, h => by
    have ha : p a = true := h a (by simp)
    rw [List.cons_append, List.dropWhile_cons]
    simp only [ha, if_true]
    exact dropWhile_append_of_all p ws xs fun c hc => h c (by simp [hc])

theorem tryShape2At_sound {l u : List Char} (h : tryShape2At l = some u) :
    ∃ ws run post, l = lit2 ++ ws ++ run ++ post ∧
      (∀ c ∈ ws, isPySpace c = true) ∧ run ≠ [] ∧
      (∀ c ∈ run, isPySpace c = false) ∧
      (∀ c, post.head? = some c → isPySpace c = true) ∧ u = run := by
  unfold tryShape2At at h
  by_cases hp : lit2.isPrefixOf l = true
  · obtain ⟨rest, hrest⟩ := (isPrefixOf_iff_exists_append lit2 l).mp hp
    subst hrest
    rw [if_pos hp, List.drop_left] at h
    cases hr : (rest.dropWhile isPySpace).takeWhile (fun c => !isPySpace c) with
    | nil => rw [hr] at h; exact absurd h (by simp)
    | cons r rs =>
      rw [hr] at h
      simp only [Option.some.injEq] at h
      subst h
      refine ⟨rest.takeWhile isPySpace, r :: rs,
        (rest.dropWhile isPySpace).dropWhile (fun c => !isPySpace c),
        ?_, ?_, by simp, ?_, ?_, rfl⟩
      · have h1 : rest = rest.takeWhile isPySpace ++ rest.dropWhile isPySpace :=
          (List.takeWhile_append_dropWhile isPySpace rest).symm
        have h2 : rest.dropWhile isPySpace =
            (r :: rs) ++
              (rest.dropWhile isPySpace).dropWhile (fun c => !isPySpace c) := by
          rw [← hr, List.takeWhile_append_dropWhile]
        conv_lhs => rw [h1]
        conv_lhs => rw [h2]
        simp [List.append_assoc]
      · intro x hx
        exact List.mem_takeWhile_imp hx
      · intro x hx
        have hx' : x ∈ (rest.dropWhile isPySpace).takeWhile (fun c => !isPySpace c) :=
          hr ▸ hx
        have := List.mem_takeWhile_imp hx'
        simpa using this
      · intro x hx
        have := head?_dropWhile_false (fun c => !isPySpace c)
          (rest.dropWhile isPySpace) x hx
        simpa using this
  · rw [if_neg hp] at h
    exact absurd h (by simp)

theorem searchShape2_sound (l : List Char) :
    ∀ u, searchShape2 l = some u →
      ∃ pre ws run post, l = pre ++ lit2 ++ ws ++ run ++ post ∧
        (∀ c ∈ ws, isPySpace c = true) ∧ run ≠ [] ∧
        (∀ c ∈ run, isPySpace c = false) ∧
        (∀ c, post.head? = some c → isPySpace c = true) ∧ u = run := by
  induction l with
  | nil => intro u h; simp [searchShape2] at h
  | cons a as ih =>
    intro u h
    simp only [searchShape2] at h
    cases ht : tryShape2At (a :: as) with
    | some v =>
      rw [ht] at h
      simp only [Option.some.injEq] at h
      subst h
      obtain ⟨ws, run, post, hl, hws, hne, hmem, hpost, hu⟩ := tryShape2At_sound ht
      exact ⟨[], ws, run, post, by simpa using hl, hws, hne, hmem, hpost, hu⟩
    | none =>
      rw [ht] at h
      obtain ⟨pre, ws, run, post, hl, hws, hne, hmem, hpost, hu⟩ := ih u h
      exact ⟨a :: pre, ws, run, post, by simp [hl], hws, hne, hmem, hpost, hu⟩

theorem tryShape2At_complete (ws run post : List Char)
    (hws : ∀ c ∈ ws, isPySpace c = true) (hne : run ≠ [])
    (hmem : ∀ c ∈ run, isPySpace c = false) :
    (tryShape2At (lit2 ++ (ws ++ (run ++ post)))).isSome = true := by
  unfold tryShape2At
  have hp : lit2.isPrefixOf (lit2 ++ (ws ++ (run ++ post))) = true :=
    (isPrefixOf_iff_exists_append lit2 _).mpr ⟨ws ++ (run ++ post), rfl⟩
  rw [if_pos hp, List.drop_left, dropWhile_append_of_all isPySpace ws (run ++ post) hws]
  cases run with
  | nil => exact absurd rfl hne
  | cons r rs =>
    have hr : isPySpace r = false := hmem r (by simp)
    simp only [List.cons_append, List.dropWhile_cons, hr]
    rw [if_neg Bool.false_ne_true]
    have htw : List.takeWhile (fun c => !isPySpace c) (r :: (rs ++ post)) =
        r :: List.takeWhile (fun c => !isPySpace c) (rs ++ post) := by
      rw [List.takeWhile_cons]
      simp [hr]
    rw [htw]
    simp

theorem searchShape2_isSome_of_tryAt (l : List Char)
    (h : (tryShape2At l).isSome = true) : (searchShape2 l).isSome = true := by
  cases l with
  | nil =>
    exact absurd h (by simp [tryShape2At, lit2, List.isPrefixOf])
  | cons a as =>
    simp only [searchShape2]
    cases ht : tryShape2At (a :: as) with
    | some v => simp
    | none => rw [ht] at h; simp at h

theorem searchShape2_complete :
    ∀ (pre ws run post : List Char), (∀ c ∈ ws, isPySpace c = true) →
      run ≠ [] → (∀ c ∈ run, isPySpace c = false) →
      (searchShape2 (pre ++ (lit2 ++ (ws ++ (run ++ post))))).isSome = true
  | [], ws, run, post, hws, hne, hmem => by
    simpa using searchShape2_isSome_of_tryAt _ (tryShape2At_complete ws run post hws hne hmem)
  | a :: pre, ws, run, post, hws, hne, hmem => by
    rw [List.cons_append]
    simp only [searchShape2]
    cases ht : tryShape2At (a :: (pre ++ (lit2 ++ (ws ++ (run ++ post))))) with
    | some v => simp
    | none => simpa using searchShape2_complete pre ws run post hws hne hmem

theorem searchShape2_isSome_iff (l : List Char) :
    (searchShape2 l).isSome = true ↔ containsShape2 l := by
  constructor
  · intro h
    obtain ⟨u, hu⟩ := Option.isSome_iff_exists.mp h
    obtain ⟨pre, ws, run, post, hl, hws, hne, hmem, _, _⟩ := searchShape2_sound l u hu
    exact ⟨pre, ws, run, post, hl, hws, hne, hmem⟩
  · rintro ⟨pre, ws, run, post, rfl, hws, hne, hmem⟩
    simpa [List.append_assoc] using searchShape2_complete pre ws run post hws hne hmem

theorem searchShape2_eq_none_of_not_contains {l : List Char}
    (h : ¬ containsShape2 l) : searchShape2 l = none := by
  cases hs : searchShape2 l with
  | none => rfl
  | some u =>
    exact absurd ((searchShape2_isSome_iff l).mp (by simp [hs])) h

/-! ## Helper lemmas about base64 and the workflow result -/

theorem utf8Bytes_ne_nil (c : Char) : utf8Bytes c ≠ [] := by
  intro h
  simp only [utf8Bytes] at h
  split at h
  · simp at h
  · split at h
    · simp at h
    · split at h <;> simp at h

theorem strBytes_ne_nil {l : List Char} (h : l ≠ []) : strBytes l ≠ [] := by
  cases l with
  | nil => exact absurd rfl h
  | cons c cs =>
    simp only [strBytes]
    intro he
    exact utf8Bytes_ne_nil c (List.append_eq_nil.mp he).1

theorem b64chunks_ne_nil : ∀ (bs : List Nat), bs ≠ [] → b64chunks bs ≠ []
  | [], h => absurd rfl h
  | [_], _ => by simp [b64chunks]
  | [_, _], _ => by simp [b64chunks]
  | _ :: _ :: _ :: _, _ => by simp [b64chunks]

theorem b64encode_ne_empty {s : String} (h : s ≠ "") : b64encode s ≠ "" := by
  intro he
  have hdat : b64chunks (strBytes s.data) = [] := congrArg String.data he
  have hsd : s.data ≠ [] := fun hd => h (String.ext hd)
  exact b64chunks_ne_nil _ (strBytes_ne_nil hsd) hdat

/-- Closed form of a non-absent `provision_user` result: the assembled
dictionary of lines 178-186. -/
theorem provision_user_some_eq (exec : List String → Bool × String)
    (adminUrl genPwd username : String) (supplied : Option String)
    (r : ProvisionResult)
    (h : (provision_user exec adminUrl genPwd username supplied).1 = some r) :
    r = { username := username
          password := resolvePassword supplied genPwd
          token_url := pyOr (generate_profile_token exec adminUrl username)
            (adminUrl ++ "/?src=connect")
          ovpn_file_base64 :=
            match get_user_profile exec username with
            | some s => if s = "" then none else some s
            | none => none } := by
  simp only [provision_user] at h
  by_cases hE : ensure_user_exists exec username = false
  · rw [if_pos hE] at h
    exact absurd h (by simp)
  · rw [if_neg hE] at h
    by_cases hS : set_password exec username (resolvePassword supplied genPwd) = false
    · rw [if_pos hS] at h
      exact absurd h (by simp)
    · rw [if_neg hS] at h
      simp only [Option.some.injEq] at h
      exact h.symm

/-- A non-absent result exists exactly when the two fatal steps succeed. -/
theorem provision_user_some_of_success (exec : List String → Bool × String)
    (adminUrl genPwd username : String) (supplied : Option String)
    (h1 : ensure_user_exists exec username = true)
    (h2 : set_password exec username (resolvePassword supplied genPwd) = true) :
    (provision_user exec adminUrl genPwd username supplied).1 =
      some { username := username
             password := resolvePassword supplied genPwd
             token_url := pyOr (generate_profile_token exec adminUrl username)
               (adminUrl ++ "/?src=connect")
             ovpn_file_base64 :=
               match get_user_profile exec username with
               | some s => if s = "" then none else some s
               | none => none } := by
  simp only [provision_user]
  rw [if_neg (by simp [h1]), if_neg (by simp [h2])]

/-- Token generation yields absent exactly in the claimed failure cases:
command failure, or neither pattern present in the output. -/
theorem generate_profile_token_eq_none (exec : List String → Bool × String)
    (adminUrl username : String)
    (h : (exec (addTokenCmd username)).1 = false ∨
      (¬ containsShape1 (exec (addTokenCmd username)).2.data ∧
       ¬ containsShape2 (exec (addTokenCmd username)).2.data)) :
    generate_profile_token exec adminUrl username = none := by
  simp only [generate_profile_token]
  rcases h with hf | ⟨hc1, hc2⟩
  · rw [if_pos hf]
  · by_cases hs : (exec (addTokenCmd username)).1 = false
    · rw [if_pos hs]
    · rw [if_neg hs]
      simp only [extractToken]
      rw [searchShape1_eq_none_of_not_contains hc1,
        searchShape2_eq_none_of_not_contains hc2]

/-! ## Claim theorems -/

/-- C3: extractToken tries the two output shapes in order with the first match
winning: (1) if the raw text contains a substring matching
`openvpn://import-profile/https://<non-whitespace run>`, it returns exactly
the embedded URL from `https://` up to the next whitespace (no trailing
whitespace or newline); (2) otherwise, if the raw text contains
`Token: <token>` (case-sensitive keyword, token the next whitespace-delimited
run), it returns `<adminUrl>/?src=connect&username=<accountName>&token=<token>`;
(3) if neither pattern matches, it returns absent. -/
theorem extractToken_spec (adminUrl username raw : String) :
    (containsShape1 raw.data →
      ∃ pre run post, raw.data = pre ++ lit1 ++ run ++ post ∧ run ≠ [] ∧
        (∀ c ∈ run, isPySpace c = false) ∧
        (∀ c, post.head? = some c → isPySpace c = true) ∧
        extractToken adminUrl username raw = some (String.mk (httpsLit ++ run))) ∧
    (¬ containsShape1 raw.data → containsShape2 raw.data →
      ∃ pre ws tok post, raw.data = pre ++ lit2 ++ ws ++ tok ++ post ∧
        (∀ c ∈ ws, isPySpace c = true) ∧ tok ≠ [] ∧
        (∀ c ∈ tok, isPySpace c = false) ∧
        (∀ c, post.head? = some c → isPySpace c = true) ∧
        extractToken adminUrl username raw =
          some (adminUrl ++ "/?src=connect&username=" ++ username ++ "&token=" ++
            String.mk tok)) ∧
    (¬ containsShape1 raw.data → ¬ containsShape2 raw.data →
      extractToken adminUrl username raw = none) := by
  refine ⟨?_, ?_, ?_⟩
  · intro h1
    have hs : (searchShape1 raw.data).isSome = true :=
      (searchShape1_isSome_iff _).mpr h1
    obtain ⟨u, hu⟩ := Option.isSome_iff_exists.mp hs
    obtain ⟨pre, run, post, hl, hne, hmem, hpost, hue⟩ := searchShape1_sound _ u hu
    refine ⟨pre, run, post, hl, hne, hmem, hpost, ?_⟩
    simp only [extractToken]
    rw [hu, hue]
  · intro h1 h2
    have hn1 : searchShape1 raw.data = none := searchShape1_eq_none_of_not_contains h1
    have hs : (searchShape2 raw.data).isSome = true :=
      (searchShape2_isSome_iff _).mpr h2
    obtain ⟨u, hu⟩ := Option.isSome_iff_exists.mp hs
    obtain ⟨pre, ws, run, post, hl, hws, hne, hmem, hpost, hue⟩ :=
      searchShape2_sound _ u hu
    refine ⟨pre, ws, run, post, hl, hws, hne, hmem, hpost, ?_⟩
    simp only [extractToken]
    rw [hn1, hu, hue]
  · intro h1 h2
    simp only [extractToken]
    rw [searchShape1_eq_none_of_not_contains h1,
      searchShape2_eq_none_of_not_contains h2]

/-- Witness for C3, exercising the neither-pattern branch on a concrete raw
text. -/
theorem extractToken_spec_witness :
    extractToken "https://admin.example" "alice" "no recognized output" = none :=
  (extractToken_spec "https://admin.example" "alice" "no recognized output").2.2
    (fun hc => absurd ((searchShape1_isSome_iff _).mpr hc) (by decide))
    (fun hc => absurd ((searchShape2_isSome_iff _).mpr hc) (by decide))

/-- C1: for every account name and password, if the ensure-account step of
provision_user fails, then provision_user returns absent, the only executor
invocation is the ensure-account command, and in particular no set-password
command is ever invoked. -/
theorem provision_user_fatal_ensure (exec : List String → Bool × String)
    (adminUrl genPwd username : String) (supplied : Option String)
    (h : (exec (ensureCmd username)).1 = false) :
    (provision_user exec adminUrl genPwd username supplied).1 = none ∧
    (provision_user exec adminUrl genPwd username supplied).2 = [ensureCmd username] ∧
    ∀ p, setPassCmd username p ∉
      (provision_user exec adminUrl genPwd username supplied).2 := by
  have hE : ensure_user_exists exec username = false := h
  refine ⟨?_, ?_, ?_⟩
  · simp [provision_user, hE]
  · simp [provision_user, hE]
  · intro p
    simp [provision_user, hE, setPassCmd, ensureCmd]

/-- Witness for C1: a concrete always-failing executor. -/
theorem provision_user_fatal_ensure_witness :
    (provision_user (fun _ => (false, "error")) "https://a" "G" "alice" none).1 =
      none ∧
    (provision_user (fun _ => (false, "error")) "https://a" "G" "alice" none).2 =
      [ensureCmd "alice"] :=
  ⟨(provision_user_fatal_ensure (fun _ => (false, "error")) "https://a" "G"
      "alice" none rfl).1,
   (provision_user_fatal_ensure (fun _ => (false, "error")) "https://a" "G"
      "alice" none rfl).2.1⟩

/-- C2: if the ensure-account and set-password steps succeed but token
generation fails (the add-profile-token command fails, or neither output
pattern matches), provision_user still returns a non-absent result whose
connection URL is the configured admin UI base URL followed by
`/?src=connect`, with no token parameter. -/
theorem provision_user_token_soft_fail (exec : List String → Bool × String)
    (adminUrl genPwd username : String) (supplied : Option String)
    (h1 : (exec (ensureCmd username)).1 = true)
    (h2 : (exec (setPassCmd username (resolvePassword supplied genPwd))).1 = true)
    (h3 : (exec (addTokenCmd username)).1 = false ∨
      (¬ containsShape1 (exec (addTokenCmd username)).2.data ∧
       ¬ containsShape2 (exec (addTokenCmd username)).2.data)) :
    ∃ r, (provision_user exec adminUrl genPwd username supplied).1 = some r ∧
      r.token_url = adminUrl ++ "/?src=connect" := by
  have htok := generate_profile_token_eq_none exec adminUrl username h3
  refine ⟨_, provision_user_some_of_success exec adminUrl genPwd username supplied h1 h2, ?_⟩
  simp [htok, pyOr]

/-- Witness for C2: token command fails, everything else succeeds. -/
theorem provision_user_token_soft_fail_witness :
    ((provision_user
        (fun cmd => if cmd = addTokenCmd "alice" then (false, "boom") else (true, "ok"))
        "https://a" "G" "alice" none).1.map ProvisionResult.token_url) =
      some ("https://a" ++ "/?src=connect") := by
  obtain ⟨r, hr, ht⟩ := provision_user_token_soft_fail
    (fun cmd => if cmd = addTokenCmd "alice" then (false, "boom") else (true, "ok"))
    "https://a" "G" "alice" none (by decide) (by decide) (Or.inl (by decide))
  rw [hr]
  simp [ht]

/-- Executor for the C4 counterexample: every command succeeds, and the
get-user-login command succeeds with empty output. -/
def execEmptyLogin : List String → Bool × String :=
  fun cmd => if cmd = getLoginCmd "alice" then (true, "") else (true, "ok")

/-- C4 counterexample: with supplied password `""` and generated password
`"G"`, all four commands succeeding and get-user-login returning empty
output, the result's password is `"G"` (not the supplied `""`), and the
profile artifact is omitted even though the get-user-login command
succeeded — refuting both the password clause and the presence-iff-success
clause of the claim as stated. -/
theorem provision_user_C4_counterexample :
    (provision_user execEmptyLogin "https://admin.example" "G" "alice" (some "")).1 =
      some { username := "alice", password := "G",
             token_url := "https://admin.example/?src=connect",
             ovpn_file_base64 := none } ∧
    execEmptyLogin (getLoginCmd "alice") = (true, "") ∧
    ("G" : String) ≠ "" := by
  refine ⟨by decide, rfl, by decide⟩

/-- C4 (amended): whenever provision_user returns a non-absent result, the
account name equals the input, the password equals the supplied password (or
the freshly generated one when the supplied password was absent or empty),
the connection URL is present (the real token URL or the fallback), and the
profile artifact field is present if and only if the get-user-login command
succeeded with nonempty raw text, in which case it is the base64 encoding of
that raw text; otherwise the artifact is omitted entirely while the workflow
still succeeds. -/
theorem provision_user_result_fields (exec : List String → Bool × String)
    (adminUrl genPwd username : String) (supplied : Option String)
    (r : ProvisionResult)
    (h : (provision_user exec adminUrl genPwd username supplied).1 = some r) :
    r.username = username ∧
    r.password = resolvePassword supplied genPwd ∧
    (r.token_url = adminUrl ++ "/?src=connect" ∨
      generate_profile_token exec adminUrl username = some r.token_url) ∧
    ((exec (getLoginCmd username)).1 = true → (exec (getLoginCmd username)).2 ≠ "" →
      r.ovpn_file_base64 = some (b64encode (exec (getLoginCmd username)).2)) ∧
    ((exec (getLoginCmd username)).1 = false ∨ (exec (getLoginCmd username)).2 = "" →
      r.ovpn_file_base64 = none) := by
  have hr := provision_user_some_eq exec adminUrl genPwd username supplied r h
  subst hr
  refine ⟨rfl, rfl, ?_, ?_, ?_⟩
  · cases htok : generate_profile_token exec adminUrl username with
    | none => left; simp [pyOr]
    | some s =>
      by_cases hs : s = ""
      · left; simp [pyOr, hs]
      · right; simp [pyOr, hs]
  · intro hsucc hne
    simp only [get_user_profile, hsucc, if_true]
    rw [if_neg (b64encode_ne_empty hne)]
  · rintro (hf | he)
    · simp [get_user_profile, hf]
    · by_cases hsucc : (exec (getLoginCmd username)).1 = true
      · have hgp : get_user_profile exec username = some (b64encode "") := by
          simp [get_user_profile, hsucc, he]
        rw [hgp]
        rfl
      · simp [get_user_profile, hsucc]

/-- Witness for C4 (amended): all commands succeed, get-user-login output
`"profile"`, so the artifact is its base64 encoding. -/
theorem provision_user_result_fields_witness :
    ({ username := "alice", password := "G",
       token_url := "https://a/?src=connect",
       ovpn_file_base64 := some "cHJvZmlsZQ==" } : ProvisionResult).ovpn_file_base64 =
      some (b64encode
        ((fun cmd => if cmd = getLoginCmd "alice" then (true, "profile") else (true, "ok"))
          (getLoginCmd "alice")).2) :=
  (provision_user_result_fields
    (fun cmd => if cmd = getLoginCmd "alice" then (true, "profile") else (true, "ok"))
    "https://a" "G" "alice" none
    { username := "alice", password := "G",
      token_url := "https://a/?src=connect",
      ovpn_file_base64 := some "cHJvZmlsZQ==" }
    (by decide)).2.2.2.1 (by decide) (by decide)

/-- C5: for every requested length `n` (default 16) and any draws of the
random source, `generate_password` returns a string of length exactly `n`
whose characters all belong to the alphabet, and the alphabet is exactly a
70-character set of uppercase letters, lowercase letters, digits, and the
eight symbols `!@#$%^&*`; no validation is performed on `n` (the theorem
holds for every `n`, including 0). -/
theorem generate_password_spec (n : Nat) (choice : Nat → Fin 70) :
    (generate_password n choice).length = n ∧
    (generate_password n choice).data.all
      (fun c => decide (c ∈ pwdAlphabet)) = true ∧
    pwdAlphabet.length = 70 ∧ pwdAlphabet.Nodup ∧
    pwdAlphabet.all (fun c =>
      ('A' ≤ c && c ≤ 'Z') || ('a' ≤ c && c ≤ 'z') || ('0' ≤ c && c ≤ '9') ||
        "!@#$%^&*".data.contains c) = true := by
  refine ⟨?_, ?_, by decide, by decide, by decide⟩
  · simp [generate_password, String.length]
  · rw [List.all_eq_true]
    intro c hc
    rw [decide_eq_true_iff]
    have hc' : c ∈ (List.range n).map fun i =>
        pwdAlphabet.get (Fin.cast pwdAlphabet_length.symm (choice i)) := hc
    obtain ⟨i, _, hi⟩ := List.mem_map.mp hc'
    rw [← hi]
    exact List.get_mem pwdAlphabet
      (Fin.cast pwdAlphabet_length.symm (choice i)).val
      (Fin.cast pwdAlphabet_length.symm (choice i)).isLt

/-- C6: for every argument list, when the external process runs to completion
(no exception, within the timeout), the executor's outcome is successful if
and only if the exit status is zero; on success the raw text is stdout
trimmed of surrounding whitespace, on failure stderr trimmed. -/
theorem run_sacli_completion (proc : List String → ProcBehavior)
    (sacliPath : String) (useSudo : Bool) (command : List String)
    (hraise : (proc (full_command sacliPath useSudo command)).raises = none)
    (hdur : (proc (full_command sacliPath useSudo command)).duration ≤ sacliTimeout) :
    ((run_sacli proc sacliPath useSudo command).1 = true ↔
      (proc (full_command sacliPath useSudo command)).returncode = 0) ∧
    ((proc (full_command sacliPath useSudo command)).returncode = 0 →
      run_sacli proc sacliPath useSudo command =
        (true, pyStripStr (proc (full_command sacliPath useSudo command)).stdout)) ∧
    ((proc (full_command sacliPath useSudo command)).returncode ≠ 0 →
      run_sacli proc sacliPath useSudo command =
        (false, pyStripStr (proc (full_command sacliPath useSudo command)).stderr)) := by
  have hev : subprocessRun sacliTimeout (proc (full_command sacliPath useSudo command)) =
      ProcEvent.completed (proc (full_command sacliPath useSudo command)).returncode
        (proc (full_command sacliPath useSudo command)).stdout
        (proc (full_command sacliPath useSudo command)).stderr := by
    simp only [subprocessRun, hraise]
    rw [if_neg (Nat.not_lt.mpr hdur)]
  simp only [run_sacli, hev]
  by_cases hrc : (proc (full_command sacliPath useSudo command)).returncode = 0
  · simp [hrc]
  · simp [hrc]

/-- Witness for C6: a process that completes with exit status 0 and padded
stdout. -/
theorem run_sacli_completion_witness :
    run_sacli (fun _ => ⟨1, 0, " out ", "err", none⟩)
      "/usr/local/openvpn_as/scripts/sacli" true ["--user", "alice", "AddProfileToken"] =
      (true, "out") := by
  have h := (run_sacli_completion (fun _ => ⟨1, 0, " out ", "err", none⟩)
    "/usr/local/openvpn_as/scripts/sacli" true ["--user", "alice", "AddProfileToken"]
    rfl (by decide)).2.1 rfl
  rw [h]
  decide

/-- C7: the command executor never propagates an exception for expected
failure modes: the timeout is 30 units; exceeding it yields
`(false, "Command timed out")`; any other execution failure yields
`(false, stringified error)`. -/
theorem run_sacli_no_exception (proc : List String → ProcBehavior)
    (sacliPath : String) (useSudo : Bool) (command : List String) :
    sacliTimeout = 30 ∧
    ((proc (full_command sacliPath useSudo command)).raises = none →
      sacliTimeout < (proc (full_command sacliPath useSudo command)).duration →
      run_sacli proc sacliPath useSudo command = (false, "Command timed out")) ∧
    (∀ e, (proc (full_command sacliPath useSudo command)).raises = some e →
      run_sacli proc sacliPath useSudo command = (false, e)) := by
  refine ⟨rfl, ?_, ?_⟩
  · intro hraise hdur
    simp only [run_sacli, subprocessRun, hraise]
    rw [if_pos hdur]
  · intro e hraise
    simp only [run_sacli, subprocessRun, hraise]

/-- Witness for C7: a process exceeding the timeout. -/
theorem run_sacli_no_exception_witness :
    run_sacli (fun _ => ⟨31, 0, "o", "e", none⟩) "/s" true ["x"] =
      (false, "Command timed out") :=
  (run_sacli_no_exception (fun _ => ⟨31, 0, "o", "e", none⟩) "/s" true ["x"]).2.1
    rfl (by decide)

/-- C8: a request whose shared-secret header is missing or does not exactly
match the configured secret is rejected with a 401 authentication error
before the workflow runs, so zero executor invocations happen for that
request. -/
theorem access_gate_rejects_bad_key (exec : List String → Bool × String)
    (adminUrl genPwd configuredKey allowed_ips : String) (header : Option String)
    (clientIp desired_username : String)
    (h : header ≠ some configuredKey) :
    ∃ d, provision_endpoint exec adminUrl genPwd configuredKey allowed_ips header
      clientIp desired_username = (HttpResponse.error 401 d, []) := by
  cases header with
  | none => exact ⟨"Missing API key", rfl⟩
  | some k =>
    by_cases hk : k = ""
    · subst hk
      exact ⟨"Missing API key", by simp [provision_endpoint, verify_api_key]⟩
    · have hne : k ≠ configuredKey := fun hkc => h (by rw [hkc])
      exact ⟨"Invalid API key", by simp [provision_endpoint, verify_api_key, hk, hne]⟩

/-- Witness for C8: missing header against a configured secret. -/
theorem access_gate_rejects_bad_key_witness :
    (provision_endpoint (fun _ => (true, "ok")) "https://a" "G" "secret" ""
      none "1.2.3.4" "alice").2 = [] := by
  obtain ⟨d, hd⟩ := access_gate_rejects_bad_key (fun _ => (true, "ok")) "https://a"
    "G" "secret" "" none "1.2.3.4" "alice" (by simp)
  rw [hd]

/-- C9: an empty configured allowlist imposes no IP restriction (every caller
address passes the gate); a non-empty allowlist rejects any caller address
not appearing verbatim in it with a 403 authorization error, and in that
case the endpoint performs zero executor invocations. -/
theorem ip_gate_spec (exec : List String → Bool × String)
    (adminUrl genPwd configuredKey allowed_ips : String) (header : Option String)
    (clientIp desired_username : String) :
    (allowed_ip_list allowed_ips = [] →
      verify_ip_address allowed_ips clientIp = Except.ok true) ∧
    (allowed_ip_list allowed_ips ≠ [] → clientIp ∉ allowed_ip_list allowed_ips →
      verify_ip_address allowed_ips clientIp =
        Except.error (403, "IP address not authorized") ∧
      (provision_endpoint exec adminUrl genPwd configuredKey allowed_ips header
        clientIp desired_username).2 = []) := by
  constructor
  · intro he
    simp only [verify_ip_address]
    rw [if_pos he]
  · intro hne hnin
    have hv : verify_ip_address allowed_ips clientIp =
        Except.error (403, "IP address not authorized") := by
      simp only [verify_ip_address]
      rw [if_neg hne, if_neg hnin]
    refine ⟨hv, ?_⟩
    simp only [provision_endpoint]
    cases hk : verify_api_key configuredKey header with
    | error e => simp
    | ok k => rw [hv]

/-- Witness for C9: a two-entry allowlist and an address outside it. -/
theorem ip_gate_spec_witness :
    verify_ip_address "10.0.0.1,10.0.0.2" "10.0.0.3" =
      Except.error (403, "IP address not authorized") :=
  ((ip_gate_spec (fun _ => (true, "ok")) "https://a" "G" "secret"
      "10.0.0.1,10.0.0.2" none "10.0.0.3" "alice").2 (by decide) (by decide)).1

/-- C10: provision_user treats a supplied empty-string password the same as
an absent one (the guard tests falsiness): with password `""` the freshly
generated 16-character password is used, and the password of any non-absent
result is never the empty string. -/
theorem provision_user_empty_password_spec (exec : List String → Bool × String)
    (adminUrl username : String) (choice : Nat → Fin 70)
    (supplied : Option String) (r : ProvisionResult) :
    provision_user exec adminUrl (generate_password 16 choice) username (some "") =
      provision_user exec adminUrl (generate_password 16 choice) username none ∧
    ((provision_user exec adminUrl (generate_password 16 choice) username
        supplied).1 = some r → r.password ≠ "") := by
  constructor
  · rfl
  · intro h
    have hr := provision_user_some_eq exec adminUrl (generate_password 16 choice)
      username supplied r h
    subst hr
    show resolvePassword supplied (generate_password 16 choice) ≠ ""
    have hG : generate_password 16 choice ≠ "" := by
      intro hg
      have hlen := congrArg String.length hg
      simp [generate_password, String.length] at hlen
    cases supplied with
    | none => simpa [resolvePassword] using hG
    | some p =>
      by_cases hp : p = ""
      · simpa [resolvePassword, hp] using hG
      · simp [resolvePassword, hp]

/-- Witness for C10: all commands succeed, the supplied password is empty,
and the resulting password is the generated one. -/
theorem provision_user_empty_password_witness :
    provision_user (fun _ => (true, "ok")) "https://a"
      (generate_password 16 fun _ => ⟨0, by decide⟩) "alice" (some "") =
      provision_user (fun _ => (true, "ok")) "https://a"
        (generate_password 16 fun _ => ⟨0, by decide⟩) "alice" none ∧
    ({ username := "alice", password := "aaaaaaaaaaaaaaaa",
       token_url := "https://a/?src=connect",
       ovpn_file_base64 := some "b2s=" } : ProvisionResult).password ≠ "" := by
  have h := provision_user_empty_password_spec (fun _ => (true, "ok")) "https://a"
    "alice" (fun _ => ⟨0, by decide⟩) (some "")
    { username := "alice", password := "aaaaaaaaaaaaaaaa",
      token_url := "https://a/?src=connect", ovpn_file_base64 := some "b2s=" }
  exact ⟨h.1, h.2 (by decide)⟩
